import Mathlib

/-!
Shallow embedding of the Waveshare 5.83" v2 e-paper driver
(`src/epd5in83_v2/mod.rs` of the epd-waveshare crate) together with the
spec-described Bus/Line Interface it drives.

The driver's own code (`Epd5in83`) is under `src/` and is translated
directly.  The `DisplayInterface`, `Color` and `Command` modules, and the
crate's `ErrorKind`, live outside `src/`; they are modelled from the
specification (spec sections 4.1, 6 and 7), which describes them as external
collaborators: each interface primitive is one bus transaction that either
succeeds (and is recorded in an event trace) or faults, and faults propagate
immediately with no retry.

Fault injection: an environment optionally names the index of the interface
call that fails and the error it fails with; a run threads a driver state
(the stored background color, as in the Rust struct) together with the
bookkeeping of the test double (number of interface calls so far, event
trace so far).
-/

namespace Epd5in83

/-- Modelled from the spec: the bi-tonal color type (`Color` in the crate's
`color.rs`, outside `src/`).  The spec (sections 1, 3) fixes a 1-bit
black/white model; a full byte of white pixels is `0xFF`, of black `0x00`. -/
inductive Color where
  | Black
  | White
deriving DecidableEq

/-- Modelled from the spec: the byte of eight like-colored pixels used for
flood fills (`Color::get_byte_value` in `color.rs`, outside `src/`). -/
def Color.get_byte_value : Color → Nat
  | .White => 0xFF
  | .Black => 0x00

/-- Modelled from the spec: the command opcode table (section 6).  Opcode
byte values live in `command.rs` (outside `src/`) and are not needed by any
claim; commands are compared by identity. -/
inductive Command where
  | PowerSetting
  | PowerOn
  | PowerOff
  | PanelSetting
  | TconResolution
  | DualSPI
  | VcomAndDataIntervalSetting
  | TconSetting
  | DataStartTransmission1
  | DataStartTransmission2
  | DisplayRefresh
  | DeepSleep
deriving DecidableEq

/-- One recorded interface call of the Bus/Line Interface (spec section
4.1): a reset pulse with its two hold times, a command write, a data write,
a repeated-value (flood fill) write, or a busy wait. -/
inductive Event where
  | reset (lowHold highHold : Nat)
  | cmd (c : Command)
  | data (bs : List Nat)
  | dataXTimes (v : Nat) (n : Nat)
  | waitIdle
deriving DecidableEq

/-- Modelled from the spec: the error kinds of section 7. -/
inductive ErrorKind where
  | busFault
  | lineFault
  | unsupportedOperation
  | invalidBuffer
deriving DecidableEq

/-- Outcome of running a driver operation: a returned value, a propagated
interface error (`Err` in Rust), or a Rust panic (the `unimplemented!`
macro of the stub operations). -/
inductive Outcome (α : Type) where
  | ok (a : α)
  | err (e : ErrorKind)
  | panicked (msg : String)
deriving DecidableEq

/-- The test environment: optionally, the zero-based index of the interface
call that faults in this run, with the error it faults with.  `none` is a
fault-free run. -/
structure Env where
  faultAt : Option (Nat × ErrorKind)

/-- Driver state plus the recording test double's bookkeeping: the stored
background color (the one mutable field of the Rust `Epd5in83` struct), the
number of interface calls made so far, and the trace of events recorded so
far. -/
structure St where
  color : Color
  calls : Nat
  trace : List Event
deriving DecidableEq

/-- A driver computation: given the environment and the current state, it
produces an outcome and the state afterwards.  State is threaded through
errors as well (in Rust, `&mut self` survives an `Err` return). -/
def M (α : Type) : Type := Env → St → Outcome α × St

def M.pure {α : Type} (a : α) : M α := fun _ s => (.ok a, s)

def M.bind {α β : Type} (x : M α) (f : α → M β) : M β := fun env s =>
  match x env s with
  | (.ok a, s1) => f a env s1
  | (.err e, s1) => (.err e, s1)
  | (.panicked m, s1) => (.panicked m, s1)

instance : Monad M where
  pure := M.pure
  bind := M.bind

/-- Modelled from the spec: one interface primitive call (one bus/line
transaction of section 4.1).  If the environment faults this call, the
error propagates and no event is recorded; otherwise the event is appended
to the trace.  Either way the call counter advances. -/
def step (ev : Event) : M Unit := fun env s =>
  match env.faultAt with
  | some (k, e) =>
      if k = s.calls then
        (.err e, { s with calls := s.calls + 1 })
      else
        (.ok (), { s with calls := s.calls + 1, trace := s.trace ++ [ev] })
  | none => (.ok (), { s with calls := s.calls + 1, trace := s.trace ++ [ev] })

/-- Reads the driver's stored background color (`self.color`); not an
interface call. -/
def getColor : M Color := fun _ s => (.ok s.color, s)

namespace DisplayInterface

/-- Modelled from the spec: `reset(lowHoldTime, highHoldTime)` of section
4.1 — drive the reset line low then high; one recorded interface call. -/
def reset (lowHold highHold : Nat) : M Unit := step (.reset lowHold highHold)

/-- Modelled from the spec: `writeCommand(opcode)` of section 4.1. -/
def cmd (c : Command) : M Unit := step (.cmd c)

/-- Modelled from the spec: `writeData(bytes)` of section 4.1. -/
def data (bs : List Nat) : M Unit := step (.data bs)

/-- Modelled from the spec: `writeRepeated(value, count)` of section 4.1 —
flood fill `count` copies of `value`. -/
def data_x_times (v n : Nat) : M Unit := step (.dataXTimes v n)

/-- Modelled from the spec: `writeCommandWithData(opcode, bytes)` of
section 4.1 — `writeCommand` followed by `writeData`. -/
def cmd_with_data (c : Command) (bs : List Nat) : M Unit := do
  cmd c
  data bs

/-- Modelled from the spec: `waitUntilIdle(busyIsLowWhenBusy)` of section
4.1 — suspend until the busy line reaches its idle level. -/
def wait_until_idle (_busyIsLow : Bool) : M Unit := step .waitIdle

end DisplayInterface

/-- Width of the display (`WIDTH` in `mod.rs`). -/
def WIDTH : Nat := 648

/-- Height of the display (`HEIGHT` in `mod.rs`). -/
def HEIGHT : Nat := 480

/-- Default background color (`DEFAULT_BACKGROUND_COLOR` in `mod.rs`). -/
def DEFAULT_BACKGROUND_COLOR : Color := Color.White

/-- `IS_BUSY_LOW` in `mod.rs`. -/
def IS_BUSY_LOW : Bool := true

/-- `NUM_DISPLAY_BITS = WIDTH * HEIGHT / 8` in `mod.rs`. -/
def NUM_DISPLAY_BITS : Nat := WIDTH * HEIGHT / 8

/-- Modelled from the spec: the waveform-table selector argument of the
LUT-selection operation (`RefreshLut` in the crate's `traits.rs`, outside
`src/`). -/
inductive RefreshLut where
  | Full
  | Quick
deriving DecidableEq

/-- `Epd5in83::command` (`mod.rs` lines 254-260). -/
def command (c : Command) : M Unit := DisplayInterface.cmd c

/-- `Epd5in83::send_data` (`mod.rs` lines 262-268). -/
def send_data (bs : List Nat) : M Unit := DisplayInterface.data bs

/-- `Epd5in83::cmd_with_data` (`mod.rs` lines 270-277). -/
def cmd_with_data (c : Command) (bs : List Nat) : M Unit :=
  DisplayInterface.cmd_with_data c bs

/-- `Epd5in83::wait_until_idle` (`mod.rs` lines 238-240). -/
def wait_until_idle : M Unit := DisplayInterface.wait_until_idle IS_BUSY_LOW

/-- `Epd5in83::width` (`mod.rs` lines 161-163). -/
def width : Nat := WIDTH

/-- `Epd5in83::height` (`mod.rs` lines 165-167). -/
def height : Nat := HEIGHT

/-- `Epd5in83::send_resolution` (`mod.rs` lines 279-291): TconResolution
opcode, then width and height each as big-endian 16-bit, one byte per
`send_data` call (`as u8` casts are `% 256`). -/
def send_resolution : M Unit := do
  let w := width
  let h := height
  command .TconResolution
  send_data [(w >>> 8) % 256]
  send_data [w % 256]
  send_data [(h >>> 8) % 256]
  send_data [h % 256]

/-- `Epd5in83::init` (`mod.rs` lines 76-109). -/
def init : M Unit := do
  DisplayInterface.reset 2000 50
  cmd_with_data .PowerSetting [0x07, 0x07, 0x3F, 0x3F]
  command .PowerOn
  wait_until_idle
  cmd_with_data .PanelSetting [0x1F]
  send_resolution
  cmd_with_data .DualSPI [0x00]
  cmd_with_data .VcomAndDataIntervalSetting [0x10, 0x07]
  cmd_with_data .TconSetting [0x22]
  wait_until_idle

/-- `Epd5in83::new` (`mod.rs` lines 124-139): build the driver with the
default background color and run `init`; on an `Err` from `init` the
constructor returns that error and no driver instance. -/
def new (env : Env) : Outcome Unit × St :=
  init env { color := DEFAULT_BACKGROUND_COLOR, calls := 0, trace := [] }

/-- `Epd5in83::sleep` (`mod.rs` lines 141-147). -/
def sleep : M Unit := do
  wait_until_idle
  command .PowerOff
  wait_until_idle
  cmd_with_data .DeepSleep [0xA5]

/-- `Epd5in83::wake_up` (`mod.rs` lines 149-151): runs `init`. -/
def wake_up : M Unit := init

/-- `Epd5in83::set_background_color` (`mod.rs` lines 153-155). -/
def set_background_color (c : Color) : M Unit := fun _ s =>
  (.ok (), { s with color := c })

/-- `Epd5in83::background_color` (`mod.rs` lines 157-159). -/
def background_color : M Color := getColor

/-- `Epd5in83::update_frame` (`mod.rs` lines 169-184): wait idle, channel-1
opcode, flood fill `WIDTH / 8 * HEIGHT` copies of the stored color's byte,
then channel-2 opcode with the caller's buffer.  No length check is
performed on `buffer`. -/
def update_frame (buffer : List Nat) : M Unit := do
  wait_until_idle
  let c ← getColor
  let color_value := c.get_byte_value
  DisplayInterface.cmd .DataStartTransmission1
  DisplayInterface.data_x_times color_value (WIDTH / 8 * HEIGHT)
  DisplayInterface.cmd_with_data .DataStartTransmission2 buffer

/-- `Epd5in83::update_partial_frame` (`mod.rs` lines 186-196): the body is
the `unimplemented!()` macro, which panics; no interface call is made and
no field is touched. -/
def updatePartialFrame (_buffer : List Nat) (_x _y _w _h : Nat) : M Unit :=
  fun _ s => (.panicked "not implemented", s)

/-- `Epd5in83::display_frame` (`mod.rs` lines 198-202). -/
def display_frame : M Unit := do
  command .DisplayRefresh
  wait_until_idle

/-- `Epd5in83::update_and_display_frame` (`mod.rs` lines 204-212). -/
def update_and_display_frame (buffer : List Nat) : M Unit := do
  update_frame buffer
  display_frame

/-- `Epd5in83::clear_frame` (`mod.rs` lines 214-228): wait idle, channel-1
opcode with `NUM_DISPLAY_BITS` bytes of `0xFF`, channel-2 opcode with the
same count of `0x00`; the stored color is not consulted. -/
def clear_frame : M Unit := do
  wait_until_idle
  command .DataStartTransmission1
  DisplayInterface.data_x_times 0xFF NUM_DISPLAY_BITS
  command .DataStartTransmission2
  DisplayInterface.data_x_times 0x00 NUM_DISPLAY_BITS

/-- `Epd5in83::set_lut` (`mod.rs` lines 230-236): the body is the
`unimplemented!()` macro, which panics; no interface call is made. -/
def set_lut (_refresh_rate : Option RefreshLut) : M Unit :=
  fun _ s => (.panicked "not implemented", s)

/-- The fault-free environment. -/
def noFault : Env := ⟨none⟩

/-- Fresh test-double state with the given stored background color. -/
def st0 (c : Color) : St := ⟨c, 0, []⟩

/-- The interface-call trace the spec's end-to-end init scenario expects
(section 8): reset pulse, PowerSetting `07 07 3F 3F`, PowerOn, wait idle,
PanelSetting `1F`, TconResolution `02 88 01 E0` one byte per write,
DualSPI `00`, Vcom/interval `10 07`, TconSetting `22`, wait idle. -/
def expected_init_trace : List Event :=
  [ .reset 2000 50,
    .cmd .PowerSetting, .data [0x07, 0x07, 0x3F, 0x3F],
    .cmd .PowerOn,
    .waitIdle,
    .cmd .PanelSetting, .data [0x1F],
    .cmd .TconResolution, .data [0x02], .data [0x88], .data [0x01],
      .data [0xE0],
    .cmd .DualSPI, .data [0x00],
    .cmd .VcomAndDataIntervalSetting, .data [0x10, 0x07],
    .cmd .TconSetting, .data [0x22],
    .waitIdle ]

/-- C1: for every driver state (stored background color), a fault-free run
of `init` succeeds and records exactly the reset pulse, PowerSetting
`[0x07,0x07,0x3F,0x3F]`, PowerOn, wait-idle, PanelSetting `[0x1F]`,
TconResolution followed by the four single-byte data writes
`0x02, 0x88, 0x01, 0xE0`, DualSPI `[0x00]`,
VcomAndDataIntervalSetting `[0x10,0x07]`, TconSetting `[0x22]`, wait-idle —
in this order and nothing else. -/
theorem c1_init_trace (c : Color) :
    init noFault (st0 c) = (.ok (), ⟨c, 19, expected_init_trace⟩) := by
  cases c <;> rfl

/-- C2: for every stored background color and every buffer of exactly
38,880 bytes, a fault-free `update_and_display_frame` succeeds and records
exactly: wait-idle, DataStartTransmission1, the 38,880-fold flood fill of
the background-color byte, DataStartTransmission2, the caller's buffer
verbatim, DisplayRefresh, wait-idle — with no wait-idle between the buffer
write and DisplayRefresh. -/
theorem c2_update_and_display_trace (c : Color) (buffer : List Nat)
    (_hlen : buffer.length = 38880) :
    update_and_display_frame buffer noFault (st0 c) =
      (.ok (), ⟨c, 7,
        [ .waitIdle,
          .cmd .DataStartTransmission1,
          .dataXTimes c.get_byte_value 38880,
          .cmd .DataStartTransmission2, .data buffer,
          .cmd .DisplayRefresh,
          .waitIdle ]⟩) := by
  cases c <;> rfl

/-- Witness for C2 at the all-zero 38,880-byte buffer with the default
white background. -/
theorem c2_witness :
    (List.replicate 38880 (0 : Nat)).length = 38880 ∧
    update_and_display_frame (List.replicate 38880 (0 : Nat)) noFault
        (st0 .White) =
      (.ok (), ⟨.White, 7,
        [ .waitIdle,
          .cmd .DataStartTransmission1,
          .dataXTimes (Color.get_byte_value .White) 38880,
          .cmd .DataStartTransmission2,
          .data (List.replicate 38880 (0 : Nat)),
          .cmd .DisplayRefresh,
          .waitIdle ]⟩) :=
  ⟨List.length_replicate 38880 0,
   c2_update_and_display_trace .White (List.replicate 38880 0)
     (List.length_replicate 38880 0)⟩

/-- C3 counterexample: at a concrete input and concrete driver state, the
partial-update stub and the LUT stub do not return an
`UnsupportedOperation` error as the claim states — they panic (Rust
`unimplemented!`). -/
theorem c3_counterexample :
    (updatePartialFrame [] 0 0 0 0 noFault (st0 .White)).1 ≠
        Outcome.err .unsupportedOperation ∧
    (set_lut none noFault (st0 .White)).1 ≠
        Outcome.err .unsupportedOperation ∧
    (updatePartialFrame [] 0 0 0 0 noFault (st0 .White)).1 =
        Outcome.panicked "not implemented" ∧
    (set_lut none noFault (st0 .White)).1 =
        Outcome.panicked "not implemented" := by
  refine ⟨?_, ?_, rfl, rfl⟩ <;> decide

/-- C3 as amended: for every environment, driver state and arguments, the
partial-update stub and the LUT stub fail deterministically by panicking
(`unimplemented!`), issue zero interface calls, and leave the driver and
recorded bus state unchanged; they do not return a structured error. -/
theorem c3_stubs_panic_no_traffic (env : Env) (s : St) (buffer : List Nat)
    (x y w h : Nat) (rr : Option RefreshLut) :
    updatePartialFrame buffer x y w h env s =
        (Outcome.panicked "not implemented", s) ∧
    set_lut rr env s = (Outcome.panicked "not implemented", s) :=
  ⟨rfl, rfl⟩

/-- C4 counterexample: the empty buffer has length 0 ≠ 38,880, yet a
fault-free `update_frame` accepts it (returns ok and transmits it
verbatim) instead of rejecting it. -/
theorem c4_counterexample :
    ([] : List Nat).length ≠ 38880 ∧
    (update_frame [] noFault (st0 .White)).1 = Outcome.ok () := by
  exact ⟨by decide, rfl⟩

/-- C4 as amended: `update_frame` performs no length validation — for
every stored color and every buffer of any length, a fault-free run
succeeds and transmits the buffer verbatim after the flood fill; a buffer
of exactly 38,880 bytes is accepted like any other. -/
theorem c4_no_length_check (c : Color) (buffer : List Nat) :
    update_frame buffer noFault (st0 c) =
      (.ok (), ⟨c, 5,
        [ .waitIdle,
          .cmd .DataStartTransmission1,
          .dataXTimes c.get_byte_value 38880,
          .cmd .DataStartTransmission2, .data buffer ]⟩) := by
  cases c <;> rfl

/-- C5: for every stored background color, a fault-free `clear_frame`
succeeds and records exactly: wait-idle, DataStartTransmission1, 38,880
bytes of `0xFF`, DataStartTransmission2, 38,880 bytes of `0x00` — and no
other bus traffic; the trace is the same fixed list for every color. -/
theorem c5_clear_frame_trace (c : Color) :
    clear_frame noFault (st0 c) =
      (.ok (), ⟨c, 5,
        [ .waitIdle,
          .cmd .DataStartTransmission1, .dataXTimes 0xFF 38880,
          .cmd .DataStartTransmission2, .dataXTimes 0x00 38880 ]⟩) := by
  cases c <;> rfl

/-- C6: for every stored color, a fault-free `sleep` records exactly
wait-idle, PowerOff, wait-idle, DeepSleep with the single payload byte
`0xA5`; and no other driver operation (init, update, display, clear,
update-and-display, wait-idle) ever issues the DeepSleep opcode, so the
driver never sends a deep-sleep payload other than `0xA5`. -/
theorem c6_sleep_trace (c : Color) (buffer : List Nat) :
    sleep noFault (st0 c) =
      (.ok (), ⟨c, 5,
        [ .waitIdle,
          .cmd .PowerOff,
          .waitIdle,
          .cmd .DeepSleep, .data [0xA5] ]⟩) ∧
    Event.cmd .DeepSleep ∉ (init noFault (st0 c)).2.trace ∧
    Event.cmd .DeepSleep ∉ (update_frame buffer noFault (st0 c)).2.trace ∧
    Event.cmd .DeepSleep ∉ (display_frame noFault (st0 c)).2.trace ∧
    Event.cmd .DeepSleep ∉
        (update_and_display_frame buffer noFault (st0 c)).2.trace ∧
    Event.cmd .DeepSleep ∉ (clear_frame noFault (st0 c)).2.trace ∧
    Event.cmd .DeepSleep ∉ (wait_until_idle noFault (st0 c)).2.trace := by
  cases c <;>
    refine ⟨rfl, by decide, ?_, by decide, ?_, by decide, by decide⟩ <;>
    simp [update_frame, update_and_display_frame, display_frame,
      wait_until_idle, DisplayInterface.wait_until_idle,
      DisplayInterface.cmd, DisplayInterface.data,
      DisplayInterface.data_x_times, DisplayInterface.cmd_with_data,
      command, getColor, step, noFault, st0, M.bind, Bind.bind, Monad.toBind]

/-- C7: `wake_up` is the very same computation as `init` — for every
environment and every driver state it returns the same outcome and the
same final state, so the two are trace-equivalent byte for byte. -/
theorem c7_wake_up_eq_init (env : Env) (s : St) :
    wake_up env s = init env s := rfl

/-- C8 counterexample: `clear_frame`'s flood-fill bytes are not determined
by the stored background color — with Black stored the trace is the same
as with White stored, its channel-1 fill byte is the fixed `0xFF` rather
than Black's byte value, while `update_frame`'s traces for the two colors
do differ. -/
theorem c8_counterexample :
    (clear_frame noFault (st0 .Black)).2.trace =
        (clear_frame noFault (st0 .White)).2.trace ∧
    (update_frame [] noFault (st0 .Black)).2.trace ≠
        (update_frame [] noFault (st0 .White)).2.trace ∧
    (clear_frame noFault (st0 .Black)).2.trace =
        [ .waitIdle,
          .cmd .DataStartTransmission1, .dataXTimes 0xFF 38880,
          .cmd .DataStartTransmission2, .dataXTimes 0x00 38880 ] ∧
    Color.Black.get_byte_value ≠ 0xFF := by
  refine ⟨rfl, ?_, rfl, by decide⟩
  decide

/-- C8 as amended: `set_background_color` and `background_color` issue
zero interface calls and touch only the stored color field; the stored
color determines the flood-fill byte of `update_frame`'s channel-1 fill
only, while `clear_frame`'s fills are the fixed bytes `0xFF` and `0x00`
for every stored color. -/
theorem c8_accessors_and_fill (env : Env) (s : St) (c : Color)
    (buffer : List Nat) :
    set_background_color c env s = (.ok (), { s with color := c }) ∧
    background_color env s = (.ok s.color, s) ∧
    (update_frame buffer noFault (st0 c)).2.trace =
        [ .waitIdle,
          .cmd .DataStartTransmission1,
          .dataXTimes c.get_byte_value 38880,
          .cmd .DataStartTransmission2, .data buffer ] ∧
    (clear_frame noFault (st0 c)).2.trace =
        [ .waitIdle,
          .cmd .DataStartTransmission1, .dataXTimes 0xFF 38880,
          .cmd .DataStartTransmission2, .dataXTimes 0x00 38880 ] := by
  refine ⟨rfl, rfl, ?_, ?_⟩ <;> cases c <;> rfl

/-- C9: a fault-free construction runs the hardware reset and the full
init sequence before returning, and yields a driver whose stored
background color is White (the default); and if any of the 19 interface
calls of init faults with any error kind, the constructor propagates that
error instead of returning a driver. -/
theorem c9_new_resets_inits_or_fails :
    new noFault = (.ok (), ⟨.White, 19, expected_init_trace⟩) ∧
    DEFAULT_BACKGROUND_COLOR = Color.White ∧
    ∀ e k, k < 19 → (new ⟨some (k, e)⟩).1 = Outcome.err e := by
  refine ⟨rfl, rfl, fun e => ?_⟩
  cases e <;> decide

/-- Witness for C9: a line fault on the very first interface call (the
reset pulse) makes the constructor fail with that fault. -/
theorem c9_witness :
    (new ⟨some (0, ErrorKind.lineFault)⟩).1 = Outcome.err .lineFault :=
  c9_new_resets_inits_or_fails.2.2 .lineFault 0 (by decide)

/-- A computation leaves the driver's stored background color unchanged,
for every environment (fault-free or faulting at any call) and every
starting state, whether it succeeds or fails. -/
def preservesColor {α : Type} (m : M α) : Prop :=
  ∀ env s, ((m env s).2).color = s.color

theorem step_preservesColor (ev : Event) : preservesColor (step ev) := by
  intro env s
  unfold step
  cases env.faultAt with
  | none => rfl
  | some ke =>
    cases ke with
    | mk k e =>
      dsimp only
      split <;> rfl

theorem getColor_preservesColor : preservesColor getColor := fun _ _ => rfl

theorem bind_preservesColor {α β : Type} {x : M α} {f : α → M β}
    (hx : preservesColor x) (hf : ∀ a, preservesColor (f a)) :
    preservesColor (x >>= f) := by
  intro env s
  show ((M.bind x f env s).2).color = s.color
  unfold M.bind
  have h1 := hx env s
  cases hx1 : x env s with
  | mk o s1 =>
    rw [hx1] at h1
    cases o with
    | ok a =>
      dsimp only
      rw [hf a env s1, h1]
    | err e => exact h1
    | panicked m => exact h1

theorem init_preservesColor : preservesColor init := by
  unfold init cmd_with_data command wait_until_idle send_resolution
    send_data DisplayInterface.cmd_with_data DisplayInterface.reset
    DisplayInterface.cmd DisplayInterface.data
    DisplayInterface.wait_until_idle
  repeat
    first
    | exact step_preservesColor _
    | apply bind_preservesColor
    | intro _

theorem sleep_preservesColor : preservesColor sleep := by
  unfold sleep cmd_with_data command wait_until_idle
    DisplayInterface.cmd_with_data DisplayInterface.cmd
    DisplayInterface.data DisplayInterface.wait_until_idle
  repeat
    first
    | exact step_preservesColor _
    | apply bind_preservesColor
    | intro _

theorem update_frame_preservesColor (buffer : List Nat) :
    preservesColor (update_frame buffer) := by
  unfold update_frame wait_until_idle DisplayInterface.cmd_with_data
    DisplayInterface.cmd DisplayInterface.data
    DisplayInterface.data_x_times DisplayInterface.wait_until_idle
  repeat
    first
    | exact step_preservesColor _
    | exact getColor_preservesColor
    | apply bind_preservesColor
    | intro _

theorem display_frame_preservesColor : preservesColor display_frame := by
  unfold display_frame command wait_until_idle DisplayInterface.cmd
    DisplayInterface.wait_until_idle
  repeat
    first
    | exact step_preservesColor _
    | apply bind_preservesColor
    | intro _

theorem update_and_display_frame_preservesColor (buffer : List Nat) :
    preservesColor (update_and_display_frame buffer) := by
  unfold update_and_display_frame
  exact bind_preservesColor (update_frame_preservesColor buffer)
    (fun _ => display_frame_preservesColor)

theorem clear_frame_preservesColor : preservesColor clear_frame := by
  unfold clear_frame command wait_until_idle DisplayInterface.cmd
    DisplayInterface.data_x_times DisplayInterface.wait_until_idle
  repeat
    first
    | exact step_preservesColor _
    | apply bind_preservesColor
    | intro _

theorem wait_until_idle_preservesColor : preservesColor wait_until_idle :=
  step_preservesColor _

/-- C10: every bus-issuing operation of the driver — init, sleep, wake_up,
update_frame, display_frame, update_and_display_frame, clear_frame,
wait_until_idle — leaves the stored background color unchanged for every
environment and state, faulting or not; reading it with
`background_color` also leaves it unchanged; and `set_background_color`
is the operation that modifies it, setting exactly the color field. -/
theorem c10_background_color_frame :
    preservesColor init ∧
    preservesColor sleep ∧
    preservesColor wake_up ∧
    (∀ buffer, preservesColor (update_frame buffer)) ∧
    preservesColor display_frame ∧
    (∀ buffer, preservesColor (update_and_display_frame buffer)) ∧
    preservesColor clear_frame ∧
    preservesColor wait_until_idle ∧
    preservesColor background_color ∧
    (∀ env s c, set_background_color c env s =
        (.ok (), { s with color := c })) :=
  ⟨init_preservesColor, sleep_preservesColor, init_preservesColor,
   update_frame_preservesColor, display_frame_preservesColor,
   update_and_display_frame_preservesColor, clear_frame_preservesColor,
   wait_until_idle_preservesColor, getColor_preservesColor,
   fun _ _ _ => rfl⟩

end Epd5in83
